import Mathlib

/-!
Verification of the split-budget-tracker ledger core.

This file gives a shallow embedding of the repository's money module
(`src/lib/money.ts`), ledger engine (`src/lib/ledger.ts`), projection
engine (`src/services/projections.ts`), event store
(`src/repo/eventStore.ts`) and the HTTP route handlers
(`src/adapters/http/routes.ts`), and proves the specification's claims
about them.

Modelling conventions:
* JavaScript numbers that hold exact decimal money amounts are modelled
  as rationals (`ℚ`); the code converts to integer cents precisely so
  that its arithmetic is exact on such values.
* `Math.round(x)` is `⌊x + 1/2⌋`, `Math.floor` on integer division is
  `Int.fdiv`.
* Account identifiers are the same strings the source builds
  (`"CASH:A"`, `"EXPENSE:A:food"`, `"DUE_FROM:A->B"`, ...).  The string
  operations `split`, `startsWith` and `includes` used by the source are
  embedded as structurally recursive functions on the character list.
* `uuidv4()` and `new Date().toISOString()` are impure; posting
  operations take an id generator `uuid : ℕ → String` and a timestamp
  `now : String` as parameters.
* thrown exceptions are modelled with `Except`.
-/

namespace SplitBudget

/-- The two users, `'A' | 'B'` in `src/lib/ledger.ts`. -/
inductive UserId
  | A
  | B
deriving DecidableEq, Repr

/-- The closed category enumeration from `src/lib/ledger.ts`. -/
inductive Category
  | food
  | groceries
  | transport
  | entertainment
  | other
deriving DecidableEq, Repr

/-- Transaction types from `src/lib/ledger.ts`. -/
inductive TxType
  | GROUP
  | SETTLEMENT
  | INITIAL
deriving DecidableEq, Repr

/-- String form of a user id. -/
def UserId.str : UserId → String
  | .A => "A"
  | .B => "B"

/-- String form of a category. -/
def Category.str : Category → String
  | .food => "food"
  | .groceries => "groceries"
  | .transport => "transport"
  | .entertainment => "entertainment"
  | .other => "other"

/-- Inverse of `Category.str`; models the `hasOwnProperty` membership
check on the budget record in `computeBudgetByCategory`. -/
def parseCategory (s : String) : Option Category :=
  if s = "food" then some .food
  else if s = "groceries" then some .groceries
  else if s = "transport" then some .transport
  else if s = "entertainment" then some .entertainment
  else if s = "other" then some .other
  else none

/-- Split a character list at every occurrence of `sep`
(JavaScript `String.prototype.split` with a one-character separator). -/
def splitOnCharList (sep : Char) : List Char → List (List Char)
  | [] => [[]]
  | c :: rest =>
    match splitOnCharList sep rest with
    | [] => if c = sep then [[], [c]] else [[c]]
    | h :: t => if c = sep then [] :: h :: t else (c :: h) :: t

/-- JavaScript `s.split(sep)` for a one-character separator. -/
def jsSplit (s : String) (sep : Char) : List String :=
  (splitOnCharList sep s.data).map fun cs => String.mk cs

/-- JavaScript `s.startsWith(pre)`. -/
def jsStartsWith (s pre : String) : Bool :=
  pre.data.isPrefixOf s.data

/-- Substring containment on character lists. -/
def containsSubList (sub : List Char) : List Char → Bool
  | [] => sub.isPrefixOf []
  | c :: t => if sub.isPrefixOf (c :: t) then true else containsSubList sub t

/-- JavaScript `s.includes(sub)`. -/
def jsIncludes (s sub : String) : Bool :=
  containsSubList sub.data s.data

/-- Embedding of `Math.round`: round half towards positive infinity. -/
def jsRound (q : ℚ) : ℤ := ⌊q + 1/2⌋

/-- Errors thrown by the money module and the ledger engine (the source
throws `Error` values with these messages). -/
inductive LedgerError
  | amountNotPositive        -- "Amount must be positive"
  | amountTooManyDecimals    -- "Amount must have at most 2 decimal places"
  | amountTooSmall           -- "Amount too small (minimum 0.01)"
  | splitCalcError           -- "Split calculation error: ..."
  | selfSettlement           -- "Cannot settle with yourself"
  | notBalanced              -- "Transaction not balanced: ..."
deriving DecidableEq, Repr

/-- Embedding of `roundTo2` from `src/lib/money.ts`:
`Math.round(value * 100) / 100`. -/
def roundTo2 (value : ℚ) : ℚ := (jsRound (value * 100) : ℚ) / 100

/-- Embedding of `validateAmount` from `src/lib/money.ts`.  The "more than 2 decimal
places" test (done on the decimal string in JS) holds exactly when
`100 * value` is not an integer. -/
def validateAmount (value : ℚ) : Except LedgerError Unit :=
  if value ≤ 0 then .error .amountNotPositive
  else if (100 * value).den ≠ 1 then .error .amountTooManyDecimals
  else if value < 1/100 then .error .amountTooSmall
  else .ok ()

/-- Result record of `splitEqually`. -/
structure SplitResult where
  perUserShare : ℚ
  remainder : ℚ
deriving DecidableEq, Repr

/-- Embedding of `splitEqually` from `src/lib/money.ts`. -/
def splitEqually (totalAmount : ℚ) : Except LedgerError SplitResult := do
  (validateAmount totalAmount : Except LedgerError Unit)
  let totalCents : ℤ := jsRound (totalAmount * 100)
  let halfCents : ℤ := totalCents.fdiv 2
  let remainderCents : ℤ := totalCents - halfCents * 2
  let perUserShare : ℚ := (halfCents : ℚ) / 100
  let remainder : ℚ := (remainderCents : ℚ) / 100
  let reconstructed : ℚ := perUserShare * 2 + remainder
  if 1/1000 < |reconstructed - totalAmount| then throw .splitCalcError
  else pure ⟨perUserShare, remainder⟩

/-- One ledger entry (`LedgerEntry` in `src/lib/ledger.ts`). -/
structure LedgerEntry where
  id : String
  txType : TxType
  txId : String
  account : String
  userId : UserId
  category : Option Category := none
  delta : ℚ
  createdAt : String
deriving DecidableEq, Repr

/-- The `ACCOUNTS` name constants from `src/lib/ledger.ts`. -/
def ACCOUNTS.CASH (u : UserId) : String := "CASH:" ++ u.str

/-- Embedding of `EXPENSE:{user}:{category}`. -/
def ACCOUNTS.EXPENSE (u : UserId) (c : Category) : String :=
  "EXPENSE:" ++ u.str ++ ":" ++ c.str

/-- Embedding of `DUE_FROM:{from}->{to}`. -/
def ACCOUNTS.DUE_FROM (f t : UserId) : String :=
  "DUE_FROM:" ++ f.str ++ "->" ++ t.str

/-- Embedding of `DUE_TO:{from}->{to}`. -/
def ACCOUNTS.DUE_TO (f t : UserId) : String :=
  "DUE_TO:" ++ f.str ++ "->" ++ t.str

/-- Embedding of `GroupExpenseInput` (ledger-level, numeric amount). -/
structure GroupExpenseInput where
  payerId : UserId
  amount : ℚ
  category : Category
deriving DecidableEq, Repr

/-- Embedding of `SettlementInput` (ledger-level, numeric amount). -/
structure SettlementInput where
  fromUserId : UserId
  toUserId : UserId
  amount : ℚ
deriving DecidableEq, Repr

/-- Embedding of `postGroupExpense` from `src/lib/ledger.ts`. -/
def postGroupExpense (uuid : ℕ → String) (now : String)
    (input : GroupExpenseInput) : Except LedgerError (List LedgerEntry) := do
  (validateAmount input.amount : Except LedgerError Unit)
  let otherUserId : UserId := if input.payerId = UserId.A then UserId.B else UserId.A
  let split ← splitEqually input.amount
  let txId := uuid 0
  let receivableAmount := split.perUserShare + split.remainder
  let entries : List LedgerEntry :=
    [ { id := uuid 1, txType := .GROUP, txId := txId,
        account := ACCOUNTS.CASH input.payerId, userId := input.payerId,
        delta := -input.amount, createdAt := now },
      { id := uuid 2, txType := .GROUP, txId := txId,
        account := ACCOUNTS.EXPENSE input.payerId input.category,
        userId := input.payerId, category := some input.category,
        delta := split.perUserShare, createdAt := now },
      { id := uuid 3, txType := .GROUP, txId := txId,
        account := ACCOUNTS.EXPENSE otherUserId input.category,
        userId := otherUserId, category := some input.category,
        delta := split.perUserShare, createdAt := now },
      { id := uuid 4, txType := .GROUP, txId := txId,
        account := ACCOUNTS.DUE_FROM input.payerId otherUserId,
        userId := input.payerId, delta := receivableAmount, createdAt := now },
      { id := uuid 5, txType := .GROUP, txId := txId,
        account := ACCOUNTS.DUE_TO otherUserId input.payerId,
        userId := otherUserId, delta := -receivableAmount, createdAt := now } ]
  let totalDelta : ℚ := entries.foldl (fun sum entry => sum + entry.delta) 0
  if 1/1000 < |totalDelta| then throw .notBalanced
  else pure entries

/-- Embedding of `postSettlement` from `src/lib/ledger.ts`. -/
def postSettlement (uuid : ℕ → String) (now : String)
    (input : SettlementInput) : Except LedgerError (List LedgerEntry) := do
  (validateAmount input.amount : Except LedgerError Unit)
  if input.fromUserId = input.toUserId then throw .selfSettlement
  else
    let txId := uuid 0
    let entries : List LedgerEntry :=
      [ { id := uuid 1, txType := .SETTLEMENT, txId := txId,
          account := ACCOUNTS.CASH input.fromUserId, userId := input.fromUserId,
          delta := -input.amount, createdAt := now },
        { id := uuid 2, txType := .SETTLEMENT, txId := txId,
          account := ACCOUNTS.CASH input.toUserId, userId := input.toUserId,
          delta := input.amount, createdAt := now },
        { id := uuid 3, txType := .SETTLEMENT, txId := txId,
          account := ACCOUNTS.DUE_FROM input.toUserId input.fromUserId,
          userId := input.toUserId, delta := -input.amount, createdAt := now },
        { id := uuid 4, txType := .SETTLEMENT, txId := txId,
          account := ACCOUNTS.DUE_TO input.fromUserId input.toUserId,
          userId := input.fromUserId, delta := input.amount, createdAt := now } ]
    let totalDelta : ℚ := entries.foldl (fun sum entry => sum + entry.delta) 0
    if 1/1000 < |totalDelta| then throw .notBalanced
    else pure entries

/-! ## Projections (`src/services/projections.ts`) -/

/-- Embedding of `roundTo2Decimals` from `src/services/projections.ts`:
`Math.round(value * 100) / 100`. -/
def roundTo2Decimals (value : ℚ) : ℚ := (jsRound (value * 100) : ℚ) / 100

/-- The five-category budget record (`Record<Category, number>`). -/
structure Budget where
  food : ℚ
  groceries : ℚ
  transport : ℚ
  entertainment : ℚ
  other : ℚ
deriving DecidableEq, Repr

/-- Read one category field of a budget record. -/
def Budget.get (b : Budget) : Category → ℚ
  | .food => b.food
  | .groceries => b.groceries
  | .transport => b.transport
  | .entertainment => b.entertainment
  | .other => b.other

/-- Embedding of `budget[category] += delta`. -/
def Budget.add (b : Budget) (c : Category) (d : ℚ) : Budget :=
  match c with
  | .food => { b with food := b.food + d }
  | .groceries => { b with groceries := b.groceries + d }
  | .transport => { b with transport := b.transport + d }
  | .entertainment => { b with entertainment := b.entertainment + d }
  | .other => { b with other := b.other + d }

/-- Apply `roundTo2Decimals` to every field. -/
def Budget.round2 (b : Budget) : Budget :=
  ⟨roundTo2Decimals b.food, roundTo2Decimals b.groceries,
   roundTo2Decimals b.transport, roundTo2Decimals b.entertainment,
   roundTo2Decimals b.other⟩

/-- The all-zero budget record the fold starts from. -/
def Budget.zero : Budget := ⟨0, 0, 0, 0, 0⟩

/-- Embedding of `NetDue` from `src/services/projections.ts`. -/
structure NetDue where
  owes : Option UserId
  amount : ℚ
deriving DecidableEq, Repr

/-- Embedding of `computeWalletBalance`: sum of all `CASH:{userId}` deltas, rounded. -/
def computeWalletBalance (userId : UserId) (entries : List LedgerEntry) : ℚ :=
  roundTo2Decimals
    ((entries.filter fun entry => entry.account = "CASH:" ++ userId.str).foldl
      (fun sum entry => sum + entry.delta) 0)

/-- One step of the `forEach` loop in `computeBudgetByCategory`:
entries whose account starts with `EXPENSE:{userId}:` contribute their
delta to the category parsed from the third `:`-separated field. -/
def budgetStep (userId : UserId) (budget : Budget) (entry : LedgerEntry) : Budget :=
  if jsStartsWith entry.account ("EXPENSE:" ++ userId.str ++ ":") then
    match parseCategory ((jsSplit entry.account ':').getD 2 "") with
    | some c => budget.add c entry.delta
    | none => budget
  else budget

/-- Embedding of `computeBudgetByCategory` from `src/services/projections.ts`. -/
def computeBudgetByCategory (userId : UserId) (entries : List LedgerEntry) : Budget :=
  (entries.foldl (budgetStep userId) Budget.zero).round2

/-- Embedding of `computeNetDue` from `src/services/projections.ts`. -/
def computeNetDue (entries : List LedgerEntry) : NetDue :=
  let dueFromAToB : ℚ :=
    (entries.filter fun entry => entry.account = "DUE_FROM:A->B").foldl
      (fun sum entry => sum + entry.delta) 0
  let dueFromBToA : ℚ :=
    (entries.filter fun entry => entry.account = "DUE_FROM:B->A").foldl
      (fun sum entry => sum + entry.delta) 0
  let netDue := dueFromAToB - dueFromBToA
  if |netDue| < 1/1000 then ⟨none, 0⟩
  else if 0 < netDue then ⟨some .B, roundTo2Decimals netDue⟩
  else ⟨some .A, roundTo2Decimals |netDue|⟩

/-- Embedding of `UserSummary` from `src/services/projections.ts`. -/
structure UserSummary where
  userId : UserId
  walletBalance : ℚ
  budgetByCategory : Budget
deriving DecidableEq, Repr

/-- Embedding of `computeUserSummary`. -/
def computeUserSummary (userId : UserId) (entries : List LedgerEntry) : UserSummary :=
  ⟨userId, computeWalletBalance userId entries, computeBudgetByCategory userId entries⟩

/-- Embedding of `computeCompleteSummary` (user summaries for A and B plus net due). -/
structure CompleteSummary where
  users : List UserSummary
  netDue : NetDue
deriving DecidableEq, Repr

/-- Embedding of `computeCompleteSummary` from `src/services/projections.ts`. -/
def computeCompleteSummary (entries : List LedgerEntry) : CompleteSummary :=
  ⟨[computeUserSummary .A entries, computeUserSummary .B entries],
   computeNetDue entries⟩

/-! ## Event store (`src/repo/eventStore.ts`) -/

/-- Stored `GroupExpense` transaction summary. -/
structure GroupExpenseTx where
  id : String
  payerId : UserId
  amount : ℚ
  category : Category
  perUserShare : ℚ
  remainder : ℚ
  createdAt : String
deriving DecidableEq, Repr

/-- Stored `Settlement` transaction summary. -/
structure SettlementTx where
  id : String
  fromUserId : UserId
  toUserId : UserId
  amount : ℚ
  createdAt : String
deriving DecidableEq, Repr

/-- Embedding of `Transaction = GroupExpense | Settlement`. -/
inductive Transaction
  | group (t : GroupExpenseTx)
  | settlement (t : SettlementTx)
deriving DecidableEq, Repr

/-- Route-level group-expense body (amount still the wire string). -/
structure GroupExpenseBody where
  payerId : UserId
  amount : String
  category : Category
deriving DecidableEq, Repr

/-- Route-level settlement body (amount still the wire string). -/
structure SettlementBody where
  fromUserId : UserId
  toUserId : UserId
  amount : String
deriving DecidableEq, Repr

/-- The `input` field stored in the idempotency map (the parsed request
body; JSON equality of two such bodies is structural equality). -/
inductive IdemInput
  | group (b : GroupExpenseBody)
  | settle (b : SettlementBody)
deriving DecidableEq, Repr

/-- The `data` field stored in the idempotency map (the success
response of the original request). -/
inductive IdemData
  | group (transaction : GroupExpenseTx) (summary : CompleteSummary)
  | settle (settlement : SettlementTx) (summary : CompleteSummary)
deriving DecidableEq, Repr

/-- One record of the idempotency map (`{ input, data }`). -/
structure IdemRecord where
  input : IdemInput
  data : IdemData
deriving DecidableEq, Repr

/-- The in-memory `EventStore` singleton's state. -/
structure EventStoreState where
  transactions : List Transaction
  ledgerEntries : List LedgerEntry
  idempotencyMap : List (String × IdemRecord)
deriving DecidableEq, Repr

/-- The empty store (also the result of `clear()`). -/
def EventStoreState.empty : EventStoreState := ⟨[], [], []⟩

/-- Embedding of `getIdempotencyResponse`. -/
def getIdempotencyResponse (st : EventStoreState) (key : String) : Option IdemRecord :=
  (st.idempotencyMap.find? fun p => p.1 = key).map fun p => p.2

/-- Embedding of `storeIdempotencyResponse` (`Map.set`; lookups see the new value). -/
def storeIdempotencyResponse (st : EventStoreState) (key : String)
    (record : IdemRecord) : EventStoreState :=
  { st with idempotencyMap := (key, record) :: st.idempotencyMap }

/-- Fallback entry used to model the partial `entries[0]!` access (the
posting operations always supply a non-empty list). -/
def fallbackEntry : LedgerEntry :=
  ⟨"", .GROUP, "", "", .A, none, 0, ""⟩

/-- Embedding of `addGroupExpense` from `src/repo/eventStore.ts`: derives the stored
summary from the entries (the other user's `EXPENSE` delta is the
per-user share) and appends transaction and entries. -/
def addGroupExpense (st : EventStoreState) (input : GroupExpenseInput)
    (entries : List LedgerEntry) : GroupExpenseTx × EventStoreState :=
  let otherUserShare : ℚ :=
    ((entries.find? fun e =>
        jsIncludes e.account "EXPENSE" && e.userId ≠ input.payerId).map
      fun e => e.delta).getD 0
  let head := entries.headD fallbackEntry
  let tx : GroupExpenseTx :=
    ⟨head.txId, input.payerId, roundTo2Decimals input.amount, input.category,
     roundTo2Decimals otherUserShare,
     roundTo2Decimals (input.amount - otherUserShare * 2), head.createdAt⟩
  (tx, { st with transactions := st.transactions ++ [.group tx],
                 ledgerEntries := st.ledgerEntries ++ entries })

/-- Embedding of `addSettlement` from `src/repo/eventStore.ts`. -/
def addSettlement (st : EventStoreState) (input : SettlementInput)
    (entries : List LedgerEntry) : SettlementTx × EventStoreState :=
  let head := entries.headD fallbackEntry
  let tx : SettlementTx :=
    ⟨head.txId, input.fromUserId, input.toUserId,
     roundTo2Decimals input.amount, head.createdAt⟩
  (tx, { st with transactions := st.transactions ++ [.settlement tx],
                 ledgerEntries := st.ledgerEntries ++ entries })

/-- Embedding of `addInitialEntries` from `src/repo/eventStore.ts`. -/
def addInitialEntries (st : EventStoreState) (entries : List LedgerEntry) :
    EventStoreState :=
  { st with ledgerEntries := st.ledgerEntries ++ entries }

/-! ## HTTP route handlers (`src/adapters/http/routes.ts`) -/

/-- Numeric value of a digit string (`parseFloat` helper). -/
def digitsToNat (l : List Char) : ℕ :=
  l.foldl (fun n c => n * 10 + (c.toNat - '0'.toNat)) 0

/-- Cent value of a wire amount of the shape `\d+\.\d{2}` (the
`MoneySchema` regex); `none` when the string does not match. -/
def parseMoneyCents (s : String) : Option ℕ :=
  match jsSplit s '.' with
  | [intPart, fracPart] =>
    if 0 < intPart.data.length ∧ intPart.data.all Char.isDigit = true ∧
        fracPart.data.length = 2 ∧ fracPart.data.all Char.isDigit = true then
      some (digitsToNat intPart.data * 100 + digitsToNat fracPart.data)
    else none
  | _ => none

/-- Exact rational value of a wire amount matching the `MoneySchema`
regex (`parseFloat` is exact on such inputs at this scale). -/
def parseMoneyString (s : String) : Option ℚ :=
  match parseMoneyCents s with
  | some c => some ((c : ℚ) / 100)
  | none => none

/-- The Zod `MoneySchema`: string matching `^\d+\.\d{2}$` whose value is
positive and at most 1,000,000. -/
def moneySchemaOk (s : String) : Bool :=
  match parseMoneyString s with
  | some v => if 0 < v ∧ v ≤ 1000000 then true else false
  | none => false

/-- Embedding of `parseFloat` as applied by the routes to a schema-validated amount
string. -/
def routeParseFloat (s : String) : ℚ := (parseMoneyString s).getD 0

/-- The validation failures the route handlers can produce (the source
raises `ValidationError` with a distinguishing message). -/
inductive ValidationKind
  | invalidBody            -- "Invalid request body"
  | selfSettlement         -- "Cannot settle with yourself"
  | invalidIdemKey         -- "Invalid idempotency key"
  | overNoDebt             -- "Over-settlement: No money is owed between users"
  | overWrongDirection     -- "Over-settlement: ... cannot settle in this direction"
  | overExcess             -- "Over-settlement: Attempted to settle ... but only ... is owed"
  | negativeWallet         -- "Wallet balances cannot be negative"
deriving DecidableEq, Repr

/-- Route-level errors (mapped to 4xx responses by the error handler). -/
inductive RouteError
  | validation (kind : ValidationKind)
  | conflict               -- "Idempotency key exists with different request body"
  | ledger (e : LedgerError)
deriving DecidableEq, Repr

/-- JavaScript truthiness of the `Idempotency-Key` header: a missing or
empty header skips the idempotency logic entirely. -/
def normalizeIdemKey : Option String → Option String
  | none => none
  | some k => if k = "" then none else some k

/-- The posting tail of `POST /transactions` (after body and key
validation and the idempotency lookup): parse the amount, post to the
ledger, append to the store, compute the summary and (when a key was
supplied) record the idempotency response. -/
def postGroupTx (uuid : ℕ → String) (now : String) (st : EventStoreState)
    (keyOpt : Option String) (body : GroupExpenseBody) :
    Except RouteError (ℕ × IdemData) × EventStoreState :=
  let numericInput : GroupExpenseInput :=
    ⟨body.payerId, routeParseFloat body.amount, body.category⟩
  match postGroupExpense uuid now numericInput with
  | .error e => (.error (.ledger e), st)
  | .ok entries =>
    let r := addGroupExpense st numericInput entries
    let response : IdemData := .group r.1 (computeCompleteSummary r.2.ledgerEntries)
    let st2 :=
      match keyOpt with
      | some key => storeIdempotencyResponse r.2 key ⟨.group body, response⟩
      | none => r.2
    (.ok (201, response), st2)

/-- Embedding of `POST /transactions` from `src/adapters/http/routes.ts`. -/
def transactionsRoute (uuid : ℕ → String) (now : String) (st : EventStoreState)
    (idemKey : Option String) (body : GroupExpenseBody) :
    Except RouteError (ℕ × IdemData) × EventStoreState :=
  if moneySchemaOk body.amount = false then (.error (.validation .invalidBody), st)
  else
    match normalizeIdemKey idemKey with
    | some key =>
      if 255 < key.length then (.error (.validation .invalidIdemKey), st)
      else
        match getIdempotencyResponse st key with
        | some record =>
          if record.input = .group body then (.ok (200, record.data), st)
          else (.error .conflict, st)
        | none => postGroupTx uuid now st (some key) body
    | none => postGroupTx uuid now st none body

/-- The posting tail of `POST /settle` (after body and key validation
and the idempotency lookup): the pre-posting over-settlement rule, then
ledger posting, store append, summary and idempotency recording. -/
def postSettleTx (uuid : ℕ → String) (now : String) (st : EventStoreState)
    (keyOpt : Option String) (body : SettlementBody) :
    Except RouteError (ℕ × IdemData) × EventStoreState :=
  let numericInput : SettlementInput :=
    ⟨body.fromUserId, body.toUserId, routeParseFloat body.amount⟩
  let currentNetDue := computeNetDue st.ledgerEntries
  match currentNetDue.owes with
  | none => (.error (.validation .overNoDebt), st)
  | some owes =>
    if owes ≠ body.fromUserId then (.error (.validation .overWrongDirection), st)
    else if currentNetDue.amount < numericInput.amount then
      (.error (.validation .overExcess), st)
    else
      match postSettlement uuid now numericInput with
      | .error e => (.error (.ledger e), st)
      | .ok entries =>
        let r := addSettlement st numericInput entries
        let response : IdemData := .settle r.1 (computeCompleteSummary r.2.ledgerEntries)
        let st2 :=
          match keyOpt with
          | some key => storeIdempotencyResponse r.2 key ⟨.settle body, response⟩
          | none => r.2
        (.ok (201, response), st2)

/-- Embedding of `POST /settle` from `src/adapters/http/routes.ts`.  The Zod schema
runs first (`MoneySchema` on the amount, then the `fromUserId ≠
toUserId` refinement), then the idempotency logic, then the posting
tail. -/
def settleRoute (uuid : ℕ → String) (now : String) (st : EventStoreState)
    (idemKey : Option String) (body : SettlementBody) :
    Except RouteError (ℕ × IdemData) × EventStoreState :=
  if moneySchemaOk body.amount = false then (.error (.validation .invalidBody), st)
  else if body.fromUserId = body.toUserId then
    (.error (.validation .selfSettlement), st)
  else
    match normalizeIdemKey idemKey with
    | some key =>
      if 255 < key.length then (.error (.validation .invalidIdemKey), st)
      else
        match getIdempotencyResponse st key with
        | some record =>
          if record.input = .settle body then (.ok (200, record.data), st)
          else (.error .conflict, st)
        | none => postSettleTx uuid now st (some key) body
    | none => postSettleTx uuid now st none body

/-- Embedding of `POST /seed/init` from `src/adapters/http/routes.ts`: validate the
wallet amounts, clear the store, append the two `INITIAL` cash entries,
and in demo mode post three sample group expenses. -/
def seedInitRoute (uuid : ℕ → String) (now : String) (st : EventStoreState)
    (demo : Bool) (walletA walletB : ℚ) :
    Except RouteError (ℕ × CompleteSummary) × EventStoreState :=
  if walletA < 0 ∨ walletB < 0 then (.error (.validation .negativeWallet), st)
  else
    let initialEntries : List LedgerEntry :=
      [ ⟨uuid 0, .INITIAL, "initial", ACCOUNTS.CASH .A, .A, none, walletA, now⟩,
        ⟨uuid 1, .INITIAL, "initial", ACCOUNTS.CASH .B, .B, none, walletB, now⟩ ]
    let st1 := addInitialEntries EventStoreState.empty initialEntries
    if demo then
      match postGroupExpense (fun n => uuid (n + 2)) now ⟨.A, 120, .food⟩ with
      | .error e => (.error (.ledger e), st1)
      | .ok es1 =>
        let r1 := addGroupExpense st1 ⟨.A, 120, .food⟩ es1
        match postGroupExpense (fun n => uuid (n + 8)) now ⟨.B, 80, .groceries⟩ with
        | .error e => (.error (.ledger e), r1.2)
        | .ok es2 =>
          let r2 := addGroupExpense r1.2 ⟨.B, 80, .groceries⟩ es2
          match postGroupExpense (fun n => uuid (n + 14)) now ⟨.A, 50, .transport⟩ with
          | .error e => (.error (.ledger e), r2.2)
          | .ok es3 =>
            let r3 := addGroupExpense r2.2 ⟨.A, 50, .transport⟩ es3
            (.ok (200, computeCompleteSummary r3.2.ledgerEntries), r3.2)
    else (.ok (200, computeCompleteSummary st1.ledgerEntries), st1)

/-! ## Entry-list and store constants used by the claims -/

/-- The five entries `postGroupExpense` builds for a split `⟨s, r⟩`. -/
def groupEntries (uuid : ℕ → String) (now : String) (input : GroupExpenseInput)
    (s r : ℚ) : List LedgerEntry :=
  let otherUserId : UserId :=
    if input.payerId = UserId.A then UserId.B else UserId.A
  [ { id := uuid 1, txType := .GROUP, txId := uuid 0,
      account := ACCOUNTS.CASH input.payerId, userId := input.payerId,
      delta := -input.amount, createdAt := now },
    { id := uuid 2, txType := .GROUP, txId := uuid 0,
      account := ACCOUNTS.EXPENSE input.payerId input.category,
      userId := input.payerId, category := some input.category,
      delta := s, createdAt := now },
    { id := uuid 3, txType := .GROUP, txId := uuid 0,
      account := ACCOUNTS.EXPENSE otherUserId input.category,
      userId := otherUserId, category := some input.category,
      delta := s, createdAt := now },
    { id := uuid 4, txType := .GROUP, txId := uuid 0,
      account := ACCOUNTS.DUE_FROM input.payerId otherUserId,
      userId := input.payerId, delta := s + r, createdAt := now },
    { id := uuid 5, txType := .GROUP, txId := uuid 0,
      account := ACCOUNTS.DUE_TO otherUserId input.payerId,
      userId := otherUserId, delta := -(s + r), createdAt := now } ]

/-- The four entries `postSettlement` builds. -/
def settlementEntries (uuid : ℕ → String) (now : String)
    (input : SettlementInput) : List LedgerEntry :=
  [ { id := uuid 1, txType := .SETTLEMENT, txId := uuid 0,
      account := ACCOUNTS.CASH input.fromUserId,
      userId := input.fromUserId, delta := -input.amount, createdAt := now },
    { id := uuid 2, txType := .SETTLEMENT, txId := uuid 0,
      account := ACCOUNTS.CASH input.toUserId, userId := input.toUserId,
      delta := input.amount, createdAt := now },
    { id := uuid 3, txType := .SETTLEMENT, txId := uuid 0,
      account := ACCOUNTS.DUE_FROM input.toUserId input.fromUserId,
      userId := input.toUserId, delta := -input.amount, createdAt := now },
    { id := uuid 4, txType := .SETTLEMENT, txId := uuid 0,
      account := ACCOUNTS.DUE_TO input.fromUserId input.toUserId,
      userId := input.fromUserId, delta := input.amount, createdAt := now } ]

/-! ### The C7 scenario state: a posted 100.00 group expense, so that
`netDue = {owes: B, amount: 50.00}` -/

/-- The five entries of `postGroupExpense(A, 100.00, food)`. -/
def scenarioEntries : List LedgerEntry :=
  [ ⟨"g1", .GROUP, "g0", ACCOUNTS.CASH .A, .A, none, -100, "t0"⟩,
    ⟨"g2", .GROUP, "g0", ACCOUNTS.EXPENSE .A .food, .A, some .food, 50, "t0"⟩,
    ⟨"g3", .GROUP, "g0", ACCOUNTS.EXPENSE .B .food, .B, some .food, 50, "t0"⟩,
    ⟨"g4", .GROUP, "g0", ACCOUNTS.DUE_FROM .A .B, .A, none, 50, "t0"⟩,
    ⟨"g5", .GROUP, "g0", ACCOUNTS.DUE_TO .B .A, .B, none, -50, "t0"⟩ ]

/-- Store state holding the scenario entries. -/
def scenarioStore : EventStoreState := ⟨[], scenarioEntries, []⟩

/-- A store state holding one prior food-expense entry (used to refute
the frame part of the seeding claim). -/
def c9Store : EventStoreState :=
  ⟨[], [⟨"e0", .GROUP, "t", ACCOUNTS.EXPENSE .A .food, .A, some .food,
    10, "ts"⟩], []⟩

/-- A stored idempotency record used by the C10 witness. -/
def c10Record : IdemRecord :=
  ⟨.group ⟨UserId.A, "100.00", Category.food⟩,
   .group ⟨"tx", UserId.A, 100, Category.food, 50, 0, "t"⟩
     (computeCompleteSummary [])⟩

/-- A store whose idempotency map holds `c10Record` under key `"k"`. -/
def c10Store : EventStoreState := ⟨[], [], [("k", c10Record)]⟩

/-! ## Helper lemmas -/

theorem foldl_add_delta (l : List LedgerEntry) (init : ℚ) :
    l.foldl (fun sum entry => sum + entry.delta) init
      = init + (l.map fun entry => entry.delta).sum := by
  induction l generalizing init with
  | nil => simp
  | cons e t ih => simp [List.foldl_cons, ih, add_assoc]

theorem validateAmount_ok_of {q : ℚ} (h1 : 0 < q) (h2 : (100 * q).den = 1)
    (h3 : 1/100 ≤ q) : validateAmount q = .ok () := by
  unfold validateAmount
  rw [if_neg (not_le.2 h1), if_neg (by simp [h2]), if_neg (not_lt.2 h3)]

theorem validateAmount_ok_elim {q : ℚ} (h : validateAmount q = .ok ()) :
    0 < q ∧ (100 * q).den = 1 ∧ 1/100 ≤ q := by
  unfold validateAmount at h
  split_ifs at h with h1 h2 h3
  exact ⟨not_le.1 h1, not_ne_iff.1 h2, not_lt.1 h3⟩

/-- For a validated amount, `100 * q` is the integer `(100 * q).num`. -/
theorem cast_num_of_validated {q : ℚ} (h : validateAmount q = .ok ()) :
    (((100 * q).num : ℤ) : ℚ) = 100 * q :=
  (Rat.den_eq_one_iff _).1 (validateAmount_ok_elim h).2.1

theorem jsRound_intCast (c : ℤ) : jsRound (c : ℚ) = c := by
  unfold jsRound
  rw [add_comm, Int.floor_add_int, show ⌊(1/2 : ℚ)⌋ = 0 by
    rw [Int.floor_eq_iff]; norm_num]
  ring

/-- The integer-cent total computed by `splitEqually` on a validated
amount. -/
theorem jsRound_cents {q : ℚ} (h : validateAmount q = .ok ()) :
    jsRound (q * 100) = (100 * q).num := by
  conv_lhs => rw [mul_comm, ← cast_num_of_validated h]
  rw [jsRound_intCast]

/-- The operation `Int.fdiv _ 2` is the rational floor of the halved value. -/
theorem fdiv_two_eq_floor (c : ℤ) : c.fdiv 2 = ⌊(c : ℚ) / 2⌋ := by
  rw [Int.fdiv_eq_ediv c (by norm_num),
    show ((2 : ℚ)) = ((2 : ℕ) : ℚ) by norm_num,
    Rat.floor_intCast_div_natCast c 2]
  norm_num

/-- Exactness of the integer-cent split: twice the floored half plus
the leftover cent reconstructs the validated amount. -/
theorem split_exact {q : ℚ} (h : validateAmount q = .ok ()) :
    2 * (((100 * q).num.fdiv 2 : ℤ) : ℚ) / 100
        + (((100 * q).num - (100 * q).num.fdiv 2 * 2 : ℤ) : ℚ) / 100 = q := by
  have hcast := cast_num_of_validated h
  push_cast
  field_simp
  linarith [hcast]

theorem splitEqually_of_valid {q : ℚ} (h : validateAmount q = .ok ()) :
    splitEqually q =
      .ok ⟨(((100 * q).num.fdiv 2 : ℤ) : ℚ) / 100,
           (((100 * q).num - (100 * q).num.fdiv 2 * 2 : ℤ) : ℚ) / 100⟩ := by
  have hexact := split_exact h
  have hc : ¬ (1/1000 < |(((100 * q).num.fdiv 2 : ℤ) : ℚ) / 100 * 2
      + (((100 * q).num - (100 * q).num.fdiv 2 * 2 : ℤ) : ℚ) / 100 - q|) := by
    rw [show (((100 * q).num.fdiv 2 : ℤ) : ℚ) / 100 * 2
        + (((100 * q).num - (100 * q).num.fdiv 2 * 2 : ℤ) : ℚ) / 100 - q = 0 by
      linarith [hexact]]
    norm_num
  unfold splitEqually
  rw [h]
  simp only [Except.bind, bind, jsRound_cents h]
  rw [if_neg hc]
  rfl

/-- An amount of `c` whole cents (with `c ≥ 1`) passes `validateAmount`. -/
theorem validateAmount_cents {c : ℕ} (hc : 0 < c) :
    validateAmount ((c : ℚ) / 100) = .ok () := by
  have h1 : (1 : ℚ) ≤ (c : ℚ) := by exact_mod_cast hc
  apply validateAmount_ok_of
  · linarith
  · rw [show (100 : ℚ) * ((c : ℚ) / 100) = (c : ℚ) by ring, Rat.den_natCast]
  · rw [div_le_div_iff₀ (by norm_num) (by norm_num)]
    linarith

/-- Evaluation of `postGroupExpense` on a validated amount: the five
built deltas sum to `-r` (the receivable/payable pair cancels, so only
`-amount + 2s = -r` remains), hence the balance guard throws exactly
when `0.001 < |r|`. -/
theorem postGroupExpense_result (uuid : ℕ → String) (now : String)
    (input : GroupExpenseInput) {s r : ℚ}
    (hv : validateAmount input.amount = .ok ())
    (hsplit : splitEqually input.amount = .ok ⟨s, r⟩)
    (hexact : 2 * s + r = input.amount) :
    postGroupExpense uuid now input =
      if 1/1000 < |r| then .error .notBalanced
      else .ok (groupEntries uuid now input s r) := by
  have hsum : ((((((0 : ℚ) + -input.amount) + s) + s) + (s + r)) + -(s + r)) = -r := by
    linarith
  unfold postGroupExpense groupEntries
  rw [hv, hsplit]
  simp only [Except.bind, bind, List.foldl_cons, List.foldl_nil]
  rw [hsum, abs_neg]
  split_ifs <;> rfl

theorem postSettlement_of_valid (uuid : ℕ → String) (now : String)
    (input : SettlementInput)
    (hv : validateAmount input.amount = .ok ())
    (hne : input.fromUserId ≠ input.toUserId) :
    postSettlement uuid now input = .ok (settlementEntries uuid now input) := by
  have hsum : (((((0 : ℚ) + -input.amount) + input.amount) + -input.amount)
      + input.amount) = 0 := by ring
  unfold postSettlement settlementEntries
  rw [hv]
  simp only [Except.bind, bind, List.foldl_cons, List.foldl_nil]
  rw [if_neg hne]
  simp only [hsum, abs_zero]
  rw [if_neg (show ¬((1:ℚ)/1000 < 0) by norm_num)]
  rfl

/-- The rounding `Math.round(v*100)/100` is the identity on values that are an exact
number of cents. -/
theorem roundTo2Decimals_of_cents {v : ℚ} {c : ℤ} (h : v * 100 = (c : ℚ)) :
    roundTo2Decimals v = v := by
  unfold roundTo2Decimals
  rw [h, jsRound_intCast, ← h]
  ring

/-! ### Account-string facts (decided on the finite account alphabet) -/

theorem jsStartsWith_expense (u p : UserId) (c : Category) :
    jsStartsWith (ACCOUNTS.EXPENSE p c) ("EXPENSE:" ++ u.str ++ ":")
      = decide (u = p) := by
  cases u <;> cases p <;> cases c <;> decide

theorem parseCategory_expense (p : UserId) (c : Category) :
    parseCategory ((jsSplit (ACCOUNTS.EXPENSE p c) ':').getD 2 "") = some c := by
  cases p <;> cases c <;> decide

theorem jsStartsWith_cash (u v : UserId) :
    jsStartsWith (ACCOUNTS.CASH v) ("EXPENSE:" ++ u.str ++ ":") = false := by
  cases u <;> cases v <;> decide

theorem jsStartsWith_dueFrom (u f t : UserId) :
    jsStartsWith (ACCOUNTS.DUE_FROM f t) ("EXPENSE:" ++ u.str ++ ":") = false := by
  cases u <;> cases f <;> cases t <;> decide

theorem jsStartsWith_dueTo (u f t : UserId) :
    jsStartsWith (ACCOUNTS.DUE_TO f t) ("EXPENSE:" ++ u.str ++ ":") = false := by
  cases u <;> cases f <;> cases t <;> decide

theorem cash_eq_dueFromAB (v : UserId) :
    (ACCOUNTS.CASH v = "DUE_FROM:A->B") ↔ False := by
  cases v <;> decide

theorem cash_eq_dueFromBA (v : UserId) :
    (ACCOUNTS.CASH v = "DUE_FROM:B->A") ↔ False := by
  cases v <;> decide

theorem expense_eq_dueFromAB (p : UserId) (c : Category) :
    (ACCOUNTS.EXPENSE p c = "DUE_FROM:A->B") ↔ False := by
  cases p <;> cases c <;> decide

theorem expense_eq_dueFromBA (p : UserId) (c : Category) :
    (ACCOUNTS.EXPENSE p c = "DUE_FROM:B->A") ↔ False := by
  cases p <;> cases c <;> decide

theorem dueTo_eq_dueFromAB (f t : UserId) :
    (ACCOUNTS.DUE_TO f t = "DUE_FROM:A->B") ↔ False := by
  cases f <;> cases t <;> decide

theorem dueTo_eq_dueFromBA (f t : UserId) :
    (ACCOUNTS.DUE_TO f t = "DUE_FROM:B->A") ↔ False := by
  cases f <;> cases t <;> decide

theorem dueFrom_eq_dueFromAB (f t : UserId) :
    (ACCOUNTS.DUE_FROM f t = "DUE_FROM:A->B") ↔ (f = .A ∧ t = .B) := by
  cases f <;> cases t <;> decide

theorem dueFrom_eq_dueFromBA (f t : UserId) :
    (ACCOUNTS.DUE_FROM f t = "DUE_FROM:B->A") ↔ (f = .B ∧ t = .A) := by
  cases f <;> cases t <;> decide

/-! ### Budget-step evaluation lemmas -/

theorem budgetStep_cash (u v : UserId) (b : Budget) (e : LedgerEntry)
    (he : e.account = ACCOUNTS.CASH v) : budgetStep u b e = b := by
  unfold budgetStep
  rw [he, jsStartsWith_cash]
  simp

theorem budgetStep_dueFrom (u f t : UserId) (b : Budget) (e : LedgerEntry)
    (he : e.account = ACCOUNTS.DUE_FROM f t) : budgetStep u b e = b := by
  unfold budgetStep
  rw [he, jsStartsWith_dueFrom]
  simp

theorem budgetStep_dueTo (u f t : UserId) (b : Budget) (e : LedgerEntry)
    (he : e.account = ACCOUNTS.DUE_TO f t) : budgetStep u b e = b := by
  unfold budgetStep
  rw [he, jsStartsWith_dueTo]
  simp

theorem budgetStep_expense (u p : UserId) (c : Category) (b : Budget)
    (e : LedgerEntry) (he : e.account = ACCOUNTS.EXPENSE p c) :
    budgetStep u b e = if u = p then b.add c e.delta else b := by
  unfold budgetStep
  rw [he, jsStartsWith_expense, parseCategory_expense]
  by_cases h : u = p <;> simp [h]

/-- A fold over entries each of which leaves the budget untouched is
the identity. -/
theorem foldl_budgetStep_const (u : UserId) (l : List LedgerEntry) (b : Budget)
    (h : ∀ e ∈ l, ∀ b' : Budget, budgetStep u b' e = b') :
    l.foldl (budgetStep u) b = b := by
  induction l generalizing b with
  | nil => rfl
  | cons e t ih =>
    rw [List.foldl_cons, h e (by simp)]
    exact ih b fun e' he' => h e' (by simp [he'])

/-- Appending entries that never touch an `EXPENSE:{u}:` account leaves
`computeBudgetByCategory u` unchanged. -/
theorem computeBudgetByCategory_append (u : UserId)
    (prior extra : List LedgerEntry)
    (h : ∀ e ∈ extra, ∀ b : Budget, budgetStep u b e = b) :
    computeBudgetByCategory u (prior ++ extra)
      = computeBudgetByCategory u prior := by
  unfold computeBudgetByCategory
  rw [List.foldl_append, foldl_budgetStep_const u extra _ h]

/-! ### Whole-cent evaluation lemmas -/

theorem validateAmount_ok_num {q : ℚ} {c : ℕ} (hq : q = (c : ℚ) / 100)
    (hc : 0 < c) : validateAmount q = .ok () :=
  hq ▸ validateAmount_cents hc

theorem splitEqually_cents {c : ℕ} (hc : 0 < c) :
    splitEqually ((c : ℚ) / 100) =
      .ok ⟨((c / 2 : ℕ) : ℚ) / 100, ((c % 2 : ℕ) : ℚ) / 100⟩ := by
  have hv := validateAmount_cents hc
  have h1 : (100 * ((c : ℚ) / 100)) = (c : ℚ) := by ring
  have hnum : (100 * ((c : ℚ) / 100)).num = (c : ℤ) := by
    rw [h1]; exact Rat.num_natCast c
  have hfdiv : ((c : ℤ)).fdiv 2 = ((c / 2 : ℕ) : ℤ) := (Int.ofNat_fdiv c 2).symm
  have e2 : (((c : ℤ) - ((c / 2 : ℕ) : ℤ) * 2 : ℤ) : ℚ) / 100
      = ((c % 2 : ℕ) : ℚ) / 100 := by
    have h2 : (c : ℤ) - ((c / 2 : ℕ) : ℤ) * 2 = ((c % 2 : ℕ) : ℤ) := by
      push_cast
      omega
    rw [h2, Int.cast_natCast]
  have e1 : ((((c / 2 : ℕ) : ℤ)) : ℚ) / 100 = ((c / 2 : ℕ) : ℚ) / 100 := by
    rw [Int.cast_natCast]
  rw [splitEqually_of_valid hv, hnum, hfdiv, e2, e1]

theorem cents_split_exact (c : ℕ) :
    2 * (((c / 2 : ℕ) : ℚ) / 100) + ((c % 2 : ℕ) : ℚ) / 100 = (c : ℚ) / 100 := by
  have h : ((2 * (c / 2) + c % 2 : ℕ) : ℚ) = (c : ℚ) := by
    congr 1
    omega
  field_simp
  push_cast at h ⊢
  linarith

theorem postGroupExpense_cents (uuid : ℕ → String) (now : String)
    (payer : UserId) (cat : Category) {c : ℕ} (hc : 0 < c) :
    postGroupExpense uuid now ⟨payer, (c : ℚ) / 100, cat⟩ =
      if 1/1000 < |((c % 2 : ℕ) : ℚ) / 100| then .error .notBalanced
      else .ok (groupEntries uuid now ⟨payer, (c : ℚ) / 100, cat⟩
        (((c / 2 : ℕ) : ℚ) / 100) (((c % 2 : ℕ) : ℚ) / 100)) :=
  postGroupExpense_result uuid now _ (validateAmount_cents hc)
    (splitEqually_cents hc) (cents_split_exact c)

/-- Posting a group expense with an odd number of cents throws the
internal "Transaction not balanced" error: the five deltas sum to
`-0.01`, which exceeds the `0.001` tolerance. -/
theorem postGroupExpense_odd (uuid : ℕ → String) (now : String)
    (payer : UserId) (cat : Category) {c : ℕ} (hc : 0 < c)
    (hodd : c % 2 = 1) :
    postGroupExpense uuid now ⟨payer, (c : ℚ) / 100, cat⟩
      = .error .notBalanced := by
  rw [postGroupExpense_cents uuid now payer cat hc, hodd,
    if_pos (show (1:ℚ)/1000 < |((1 : ℕ) : ℚ) / 100| by
      rw [abs_of_nonneg (by norm_num)]
      norm_num)]

/-- Posting a group expense with an even number of cents succeeds and
returns the five documented entries. -/
theorem postGroupExpense_even (uuid : ℕ → String) (now : String)
    (payer : UserId) (cat : Category) {c : ℕ} (hc : 0 < c)
    (heven : c % 2 = 0) :
    postGroupExpense uuid now ⟨payer, (c : ℚ) / 100, cat⟩
      = .ok (groupEntries uuid now ⟨payer, (c : ℚ) / 100, cat⟩
          (((c / 2 : ℕ) : ℚ) / 100) 0) := by
  rw [postGroupExpense_cents uuid now payer cat hc, heven]
  simp only [Nat.cast_zero, zero_div, abs_zero]
  rw [if_neg (show ¬((1:ℚ)/1000 < 0) by norm_num)]

/-! ### Wire-amount schema helpers -/

theorem moneySchemaOk_elim {s : String} (h : moneySchemaOk s = true) :
    ∃ c : ℕ, 0 < c ∧ parseMoneyCents s = some c ∧
      routeParseFloat s = (c : ℚ) / 100 ∧
      validateAmount (routeParseFloat s) = .ok () := by
  cases hp : parseMoneyCents s with
  | none =>
    simp only [moneySchemaOk, parseMoneyString, hp] at h
    exact (Bool.false_ne_true h).elim
  | some c =>
    simp only [moneySchemaOk, parseMoneyString, hp] at h
    split_ifs at h with hcond
    have hcpos : 0 < c := by
      have h0 : (0 : ℚ) < (c : ℚ) / 100 := hcond.1
      by_contra hzero
      have : c = 0 := by omega
      rw [this] at h0
      norm_num at h0
    refine ⟨c, hcpos, rfl, ?_, ?_⟩
    · simp [routeParseFloat, parseMoneyString, hp]
    · exact validateAmount_ok_num
        (by simp [routeParseFloat, parseMoneyString, hp]) hcpos

/-! ### Net-due characterization -/

theorem computeNetDue_cases (entries : List LedgerEntry) :
    computeNetDue entries =
      if |((entries.filter fun e => e.account = "DUE_FROM:A->B").map
            fun e => e.delta).sum
          - ((entries.filter fun e => e.account = "DUE_FROM:B->A").map
            fun e => e.delta).sum| < 1/1000 then ⟨none, 0⟩
      else if 0 < ((entries.filter fun e => e.account = "DUE_FROM:A->B").map
            fun e => e.delta).sum
          - ((entries.filter fun e => e.account = "DUE_FROM:B->A").map
            fun e => e.delta).sum then
        ⟨some .B, roundTo2Decimals
          (((entries.filter fun e => e.account = "DUE_FROM:A->B").map
              fun e => e.delta).sum
            - ((entries.filter fun e => e.account = "DUE_FROM:B->A").map
              fun e => e.delta).sum)⟩
      else
        ⟨some .A, roundTo2Decimals
          |((entries.filter fun e => e.account = "DUE_FROM:A->B").map
              fun e => e.delta).sum
            - ((entries.filter fun e => e.account = "DUE_FROM:B->A").map
              fun e => e.delta).sum|⟩ := by
  simp only [computeNetDue, foldl_add_delta, zero_add]

/-! ### Further account disequalities -/

theorem cash_ne_expense (v u : UserId) (c : Category) :
    ACCOUNTS.CASH v ≠ ACCOUNTS.EXPENSE u c := by
  cases v <;> cases u <;> cases c <;> decide

theorem dueFrom_ne_expense (f t u : UserId) (c : Category) :
    ACCOUNTS.DUE_FROM f t ≠ ACCOUNTS.EXPENSE u c := by
  cases f <;> cases t <;> cases u <;> cases c <;> decide

theorem dueTo_ne_expense (f t u : UserId) (c : Category) :
    ACCOUNTS.DUE_TO f t ≠ ACCOUNTS.EXPENSE u c := by
  cases f <;> cases t <;> cases u <;> cases c <;> decide

/-! ## Claims -/

/-- C2: for every total `T` passing `validateAmount`, `splitEqually`
returns `share = ⌊100T/2⌋/100` and
`remainder = (100T - 2⌊100T/2⌋)/100`, the remainder is `0` or `0.01`,
and `2·share + remainder = T` exactly. -/
theorem C2_splitEqually_floor_spec (T : ℚ) (h : validateAmount T = .ok ()) :
    ∃ s r : ℚ, splitEqually T = .ok ⟨s, r⟩ ∧
      s = ((⌊100 * T / 2⌋ : ℤ) : ℚ) / 100 ∧
      r = (100 * T - 2 * ((⌊100 * T / 2⌋ : ℤ) : ℚ)) / 100 ∧
      (r = 0 ∨ r = 1/100) ∧
      2 * s + r = T := by
  have hcast := cast_num_of_validated h
  have hfloor : ⌊100 * T / 2⌋ = ((100 * T).num).fdiv 2 := by
    rw [fdiv_two_eq_floor]
    congr 1
    rw [hcast]
  refine ⟨_, _, splitEqually_of_valid h, ?_, ?_, ?_, ?_⟩
  · rw [hfloor]
  · rw [hfloor]
    push_cast
    rw [hcast]
    ring
  · have hfd : (100 * T).num - ((100 * T).num).fdiv 2 * 2 = (100 * T).num % 2 := by
      rw [Int.fdiv_eq_ediv _ (by norm_num)]
      omega
    rw [hfd]
    rcases Int.emod_two_eq (100 * T).num with h0 | h1
    · left
      rw [h0]
      norm_num
    · right
      rw [h1]
      norm_num
  · have := split_exact h
    linarith

/-- C2 witness at `T = 100.01`: the split is `⟨50.00, 0.01⟩`. -/
theorem C2_witness : splitEqually ((10001 : ℚ) / 100) = .ok ⟨50, 1/100⟩ := by
  obtain ⟨s, r, h1, hs, hr, -, -⟩ :=
    C2_splitEqually_floor_spec ((10001 : ℚ) / 100)
      (validateAmount_ok_num (c := 10001) (by norm_num) (by norm_num))
  have hfl : ⌊100 * ((10001 : ℚ) / 100) / 2⌋ = 5000 := by
    rw [show (100 * ((10001 : ℚ) / 100)) = ((10001 : ℤ) : ℚ) by norm_num,
      ← fdiv_two_eq_floor]
    decide
  rw [h1, hs, hr, hfl]
  norm_num

/-- C1 (code-bug evidence): with amount `100.01` — which passes
`validateAmount` — `postGroupExpense` does not return the documented
five entries at all: the five deltas it builds sum to `-0.01`
(`-amount + 2·share`, the receivable/payable pair cancelling), which
exceeds the `0.001` balance tolerance, so the internal
"Transaction not balanced" error is thrown. -/
theorem C1_group_expense_100_01_throws :
    postGroupExpense (fun _ => "uuid") "t0"
      ⟨UserId.A, 10001/100, Category.food⟩ = .error .notBalanced := by
  have h := postGroupExpense_odd (fun _ => "uuid") "t0" UserId.A Category.food
    (c := 10001) (by norm_num) (by norm_num)
  rw [show (((10001 : ℕ) : ℚ) / 100) = (10001 : ℚ) / 100 by norm_num] at h
  exact h

/-- C4 (code-bug evidence): the valid group-expense input
`(payer = A, amount = 0.03, category = food)` makes `postGroupExpense`
raise its internal "not balanced" error instead of posting a
zero-sum entry set (the built deltas sum to `-0.01`). -/
theorem C4_balance_violated_at_0_03 :
    postGroupExpense (fun _ => "uuid") "t0"
      ⟨UserId.A, 3/100, Category.food⟩ = .error .notBalanced := by
  have h := postGroupExpense_odd (fun _ => "uuid") "t0" UserId.A Category.food
    (c := 3) (by norm_num) (by norm_num)
  rw [show (((3 : ℕ) : ℚ) / 100) = (3 : ℚ) / 100 by norm_num] at h
  exact h

/-- C6 (code-bug evidence): `postGroupExpense(P1, 0.01, food)` does not
produce any entries (so no `EXPENSE` totals and no net-due change):
the built deltas sum to `-0.01` and the internal
"Transaction not balanced" error is thrown. -/
theorem C6_penny_expense_throws :
    postGroupExpense (fun _ => "uuid") "t0"
      ⟨UserId.A, 1/100, Category.food⟩ = .error .notBalanced := by
  have h := postGroupExpense_odd (fun _ => "uuid") "t0" UserId.A Category.food
    (c := 1) (by norm_num) (by norm_num)
  rw [show (((1 : ℕ) : ℚ) / 100) = (1 : ℚ) / 100 by norm_num] at h
  exact h

/-- C3: for every settlement input whose amount passes `validateAmount`
and with distinct parties, `postSettlement` returns exactly the four
entries `CASH(from) -= amount`, `CASH(to) += amount`,
`DUE_FROM(to,from) -= amount`, `DUE_TO(from,to) += amount`; none of
them is an `EXPENSE` account, so appending them never changes any
party's per-category budget. -/
theorem C3_postSettlement_spec (uuid : ℕ → String) (now : String)
    (input : SettlementInput)
    (hv : validateAmount input.amount = .ok ())
    (hne : input.fromUserId ≠ input.toUserId) :
    ∃ es : List LedgerEntry,
      postSettlement uuid now input = .ok es ∧
      es = [ ⟨uuid 1, .SETTLEMENT, uuid 0, ACCOUNTS.CASH input.fromUserId,
              input.fromUserId, none, -input.amount, now⟩,
             ⟨uuid 2, .SETTLEMENT, uuid 0, ACCOUNTS.CASH input.toUserId,
              input.toUserId, none, input.amount, now⟩,
             ⟨uuid 3, .SETTLEMENT, uuid 0,
              ACCOUNTS.DUE_FROM input.toUserId input.fromUserId,
              input.toUserId, none, -input.amount, now⟩,
             ⟨uuid 4, .SETTLEMENT, uuid 0,
              ACCOUNTS.DUE_TO input.fromUserId input.toUserId,
              input.fromUserId, none, input.amount, now⟩ ] ∧
      (∀ e ∈ es, ∀ (u : UserId) (c : Category),
        e.account ≠ ACCOUNTS.EXPENSE u c) ∧
      (∀ (u : UserId) (prior : List LedgerEntry),
        computeBudgetByCategory u (prior ++ es)
          = computeBudgetByCategory u prior) := by
  refine ⟨settlementEntries uuid now input,
    postSettlement_of_valid uuid now input hv hne, rfl, ?_, ?_⟩
  · intro e he u c
    simp only [settlementEntries, List.mem_cons, List.not_mem_nil, or_false] at he
    rcases he with rfl | rfl | rfl | rfl
    · exact cash_ne_expense _ u c
    · exact cash_ne_expense _ u c
    · exact dueFrom_ne_expense _ _ u c
    · exact dueTo_ne_expense _ _ u c
  · intro u prior
    apply computeBudgetByCategory_append
    intro e he b
    simp only [settlementEntries, List.mem_cons, List.not_mem_nil, or_false] at he
    rcases he with rfl | rfl | rfl | rfl
    · exact budgetStep_cash u input.fromUserId b _ rfl
    · exact budgetStep_cash u input.toUserId b _ rfl
    · exact budgetStep_dueFrom u input.toUserId input.fromUserId b _ rfl
    · exact budgetStep_dueTo u input.fromUserId input.toUserId b _ rfl

/-- C3 witness: the settlement `(B → A, 30.00)` posts the four
documented entries. -/
theorem C3_witness :
    postSettlement (fun _ => "u") "t0" ⟨UserId.B, UserId.A, 30⟩ =
      .ok [ ⟨"u", .SETTLEMENT, "u", ACCOUNTS.CASH UserId.B, UserId.B,
             none, -30, "t0"⟩,
            ⟨"u", .SETTLEMENT, "u", ACCOUNTS.CASH UserId.A, UserId.A,
             none, 30, "t0"⟩,
            ⟨"u", .SETTLEMENT, "u", ACCOUNTS.DUE_FROM UserId.A UserId.B,
             UserId.A, none, -30, "t0"⟩,
            ⟨"u", .SETTLEMENT, "u", ACCOUNTS.DUE_TO UserId.B UserId.A,
             UserId.B, none, 30, "t0"⟩ ] := by
  obtain ⟨es, h1, h2, -, -⟩ :=
    C3_postSettlement_spec (fun _ => "u") "t0" ⟨UserId.B, UserId.A, 30⟩
      (validateAmount_ok_num (c := 3000) (by norm_num) (by norm_num))
      (by decide)
  rw [h1, h2]

/-- C5: `computeNetDue` sums the deltas on `DUE_FROM:A->B` and
`DUE_FROM:B->A` (the two receivable accounts), takes their difference
`net`, and returns: nothing owed when `|net| < 0.001`; otherwise
`{owes: B, round2 net}` when `net > 0` and `{owes: A, round2 |net|}`
when `net < 0`. -/
theorem C5_computeNetDue_spec (entries : List LedgerEntry) (r12 r21 net : ℚ)
    (h12 : r12 = ((entries.filter fun e =>
        e.account = "DUE_FROM:A->B").map fun e => e.delta).sum)
    (h21 : r21 = ((entries.filter fun e =>
        e.account = "DUE_FROM:B->A").map fun e => e.delta).sum)
    (hnet : net = r12 - r21) :
    (|net| < 1/1000 → computeNetDue entries = ⟨none, 0⟩) ∧
    (¬ |net| < 1/1000 → 0 < net →
      computeNetDue entries = ⟨some .B, roundTo2Decimals net⟩) ∧
    (¬ |net| < 1/1000 → net < 0 →
      computeNetDue entries = ⟨some .A, roundTo2Decimals |net|⟩) := by
  subst hnet
  subst h12
  subst h21
  refine ⟨fun hlt => ?_, fun hge hpos => ?_, fun hge hneg => ?_⟩
  · rw [computeNetDue_cases, if_pos hlt]
  · rw [computeNetDue_cases, if_neg hge, if_pos hpos]
  · rw [computeNetDue_cases, if_neg hge, if_neg (not_lt.mpr (le_of_lt hneg))]

/-- C5 witness: a single `DUE_FROM:A->B` entry of `+50` yields
`{owes: B, amount: 50}`. -/
theorem C5_witness :
    computeNetDue [⟨"e", .GROUP, "t", "DUE_FROM:A->B", .A, none, 50, "ts"⟩]
      = ⟨some UserId.B, 50⟩ := by
  have h := (C5_computeNetDue_spec
    [⟨"e", .GROUP, "t", "DUE_FROM:A->B", .A, none, 50, "ts"⟩]
    50 0 50 (by simp [List.filter]) (by simp [List.filter]) (by norm_num)).2.1
    (by rw [abs_of_nonneg (by norm_num)]; norm_num) (by norm_num)
  rw [h, roundTo2Decimals_of_cents (c := 5000) (by norm_num)]

/-- C8 (counterexample to the claim as stated): for the amount `0`
— an "amount" that fails `validateAmount` — the self-settlement
`postSettlement(A, A, 0)` fails with the amount error, not with
`SelfSettlement`: the amount check runs first. -/
theorem C8_counterexample :
    postSettlement (fun _ => "u") "t0" ⟨UserId.A, UserId.A, 0⟩
        = .error .amountNotPositive ∧
    postSettlement (fun _ => "u") "t0" ⟨UserId.A, UserId.A, 0⟩
        ≠ .error .selfSettlement := by
  have hv : validateAmount (0 : ℚ) = .error .amountNotPositive := by
    unfold validateAmount
    rw [if_pos le_rfl]
  have h : postSettlement (fun _ => "u") "t0" ⟨UserId.A, UserId.A, 0⟩
      = .error .amountNotPositive := by
    unfold postSettlement
    rw [show (⟨UserId.A, UserId.A, (0:ℚ)⟩ : SettlementInput).amount = (0:ℚ)
      from rfl, hv]
    rfl
  refine ⟨h, ?_⟩
  rw [h]
  simp

/-- C8 (amended): for every amount that passes `validateAmount` and
every party `X`, `postSettlement(X, X, amount)` fails with
`SelfSettlement` and constructs no entries; and at the route level any
self-settlement request terminates with a synchronous validation error
and leaves the store state (hence every projection) unchanged. -/
theorem C8_selfSettlement_spec :
    (∀ (uuid : ℕ → String) (now : String) (X : UserId) (a : ℚ),
      validateAmount a = .ok () →
      postSettlement uuid now ⟨X, X, a⟩ = .error .selfSettlement) ∧
    (∀ (uuid : ℕ → String) (now : String) (st : EventStoreState)
        (key : Option String) (body : SettlementBody),
      body.fromUserId = body.toUserId →
      (settleRoute uuid now st key body).2 = st ∧
      computeNetDue (settleRoute uuid now st key body).2.ledgerEntries
        = computeNetDue st.ledgerEntries ∧
      ∃ k, (settleRoute uuid now st key body).1 = .error (.validation k) ∧
        (moneySchemaOk body.amount = true → k = .selfSettlement)) := by
  constructor
  · intro uuid now X a hv
    unfold postSettlement
    rw [show (⟨X, X, a⟩ : SettlementInput).amount = a from rfl, hv]
    simp only [Except.bind, bind]
    rw [if_pos trivial]
    rfl
  · intro uuid now st key body heq
    unfold settleRoute
    by_cases hs : moneySchemaOk body.amount = false
    · rw [if_pos hs]
      exact ⟨rfl, rfl, .invalidBody, rfl,
        fun ht => (Bool.false_ne_true (hs ▸ ht)).elim⟩
    · rw [if_neg hs, if_pos heq]
      exact ⟨rfl, rfl, .selfSettlement, rfl, fun _ => rfl⟩

/-- C8 witness: `postSettlement(P1, P1, 10.00)` fails with
`SelfSettlement`. -/
theorem C8_witness :
    postSettlement (fun _ => "u") "t0" ⟨UserId.A, UserId.A, 10⟩
      = .error .selfSettlement :=
  C8_selfSettlement_spec.1 (fun _ => "u") "t0" UserId.A 10
    (validateAmount_ok_num (c := 1000) (by norm_num) (by norm_num))

/-- Evaluation of `POST /seed/init` without demo mode: the store is
cleared and then holds exactly the two `INITIAL` cash entries. -/
theorem seedInitRoute_noDemo (uuid : ℕ → String) (now : String)
    (st : EventStoreState) (walletA walletB : ℚ)
    (hA : 0 ≤ walletA) (hB : 0 ≤ walletB) :
    seedInitRoute uuid now st false walletA walletB =
      (.ok (200, computeCompleteSummary
          [ ⟨uuid 0, .INITIAL, "initial", ACCOUNTS.CASH .A, .A, none,
             walletA, now⟩,
            ⟨uuid 1, .INITIAL, "initial", ACCOUNTS.CASH .B, .B, none,
             walletB, now⟩ ]),
       ⟨[], [ ⟨uuid 0, .INITIAL, "initial", ACCOUNTS.CASH .A, .A, none,
               walletA, now⟩,
              ⟨uuid 1, .INITIAL, "initial", ACCOUNTS.CASH .B, .B, none,
               walletB, now⟩ ], []⟩) := by
  unfold seedInitRoute
  rw [if_neg (by push_neg; exact ⟨hA, hB⟩)]
  simp [addInitialEntries, EventStoreState.empty]

/-- C9 (counterexample to the claim as stated): `POST /seed/init`
does more than create two `CASH` entries — it first discards the whole
history.  Before the call `EXPENSE:A:food` totals `10`; afterwards it
totals `0`. -/
theorem C9_counterexample :
    (computeBudgetByCategory UserId.A c9Store.ledgerEntries).food = 10 ∧
    (computeBudgetByCategory UserId.A
      (seedInitRoute (fun _ => "u") "t0" c9Store false 500 500).2.ledgerEntries).food
        = 0 := by
  constructor
  · unfold computeBudgetByCategory c9Store
    rw [show ([⟨"e0", .GROUP, "t", ACCOUNTS.EXPENSE .A .food, .A,
        some .food, 10, "ts"⟩] : List LedgerEntry).foldl
          (budgetStep UserId.A) Budget.zero
        = budgetStep UserId.A Budget.zero
            ⟨"e0", .GROUP, "t", ACCOUNTS.EXPENSE .A .food, .A,
             some .food, 10, "ts"⟩ from rfl]
    rw [budgetStep_expense _ _ _ _ _ rfl, if_pos rfl]
    simp [Budget.zero, Budget.add, Budget.round2]
    rw [roundTo2Decimals_of_cents (c := 1000) (by norm_num)]
  · rw [seedInitRoute_noDemo _ _ _ _ _ (by norm_num) (by norm_num)]
    unfold computeBudgetByCategory
    rw [show ([⟨"u", .INITIAL, "initial", ACCOUNTS.CASH .A, .A, none,
          (500:ℚ), "t0"⟩,
         ⟨"u", .INITIAL, "initial", ACCOUNTS.CASH .B, .B, none,
          (500:ℚ), "t0"⟩] : List LedgerEntry).foldl
            (budgetStep UserId.A) Budget.zero
        = budgetStep UserId.A (budgetStep UserId.A Budget.zero
            ⟨"u", .INITIAL, "initial", ACCOUNTS.CASH .A, .A, none, 500, "t0"⟩)
            ⟨"u", .INITIAL, "initial", ACCOUNTS.CASH .B, .B, none, 500, "t0"⟩
        from rfl]
    rw [budgetStep_cash _ UserId.B _ _ rfl, budgetStep_cash _ UserId.A _ _ rfl]
    simp [Budget.zero, Budget.round2]
    rw [roundTo2Decimals_of_cents (c := 0) (by norm_num)]

/-- C9 (amended): `POST /seed/init` without demo mode, for non-negative
wallet amounts, performs the full reset (discarding all entries,
transactions and the idempotency cache) and then appends exactly two
`CASH` entries, one per party with the given delta; the resulting store
holds exactly those two entries and nothing else. -/
theorem C9_seedInit_spec (uuid : ℕ → String) (now : String)
    (st : EventStoreState) (walletA walletB : ℚ)
    (hA : 0 ≤ walletA) (hB : 0 ≤ walletB) :
    seedInitRoute uuid now st false walletA walletB =
      (.ok (200, computeCompleteSummary
          [ ⟨uuid 0, .INITIAL, "initial", ACCOUNTS.CASH .A, .A, none,
             walletA, now⟩,
            ⟨uuid 1, .INITIAL, "initial", ACCOUNTS.CASH .B, .B, none,
             walletB, now⟩ ]),
       ⟨[], [ ⟨uuid 0, .INITIAL, "initial", ACCOUNTS.CASH .A, .A, none,
               walletA, now⟩,
              ⟨uuid 1, .INITIAL, "initial", ACCOUNTS.CASH .B, .B, none,
               walletB, now⟩ ], []⟩) :=
  seedInitRoute_noDemo uuid now st walletA walletB hA hB

/-- C9 witness: seeding `500/500` on the store with prior history. -/
theorem C9_witness :
    seedInitRoute (fun _ => "w") "t1" c9Store false 500 500 =
      (.ok (200, computeCompleteSummary
          [ ⟨"w", .INITIAL, "initial", ACCOUNTS.CASH .A, .A, none,
             500, "t1"⟩,
            ⟨"w", .INITIAL, "initial", ACCOUNTS.CASH .B, .B, none,
             500, "t1"⟩ ]),
       ⟨[], [ ⟨"w", .INITIAL, "initial", ACCOUNTS.CASH .A, .A, none,
               500, "t1"⟩,
              ⟨"w", .INITIAL, "initial", ACCOUNTS.CASH .B, .B, none,
               500, "t1"⟩ ], []⟩) :=
  C9_seedInit_spec (fun _ => "w") "t1" c9Store 500 500 (by norm_num)
    (by norm_num)

/-! ### Settle-route evaluation helpers -/

theorem settleRoute_noKey (uuid : ℕ → String) (now : String)
    (st : EventStoreState) (body : SettlementBody)
    (hs : moneySchemaOk body.amount = true)
    (hne : body.fromUserId ≠ body.toUserId) :
    settleRoute uuid now st none body = postSettleTx uuid now st none body := by
  unfold settleRoute
  rw [if_neg (by rw [hs]; simp), if_neg hne]
  rfl

theorem postSettleTx_noDebt (uuid : ℕ → String) (now : String)
    (st : EventStoreState) (keyOpt : Option String) (body : SettlementBody)
    (hnd : (computeNetDue st.ledgerEntries).owes = none) :
    postSettleTx uuid now st keyOpt body
      = (.error (.validation .overNoDebt), st) := by
  unfold postSettleTx
  simp only [hnd]

theorem postSettleTx_wrongDir (uuid : ℕ → String) (now : String)
    (st : EventStoreState) (keyOpt : Option String) (body : SettlementBody)
    (w : UserId) (hnd : (computeNetDue st.ledgerEntries).owes = some w)
    (hw : w ≠ body.fromUserId) :
    postSettleTx uuid now st keyOpt body
      = (.error (.validation .overWrongDirection), st) := by
  unfold postSettleTx
  simp only [hnd]
  rw [if_pos hw]

theorem postSettleTx_excess (uuid : ℕ → String) (now : String)
    (st : EventStoreState) (keyOpt : Option String) (body : SettlementBody)
    (hnd : (computeNetDue st.ledgerEntries).owes = some body.fromUserId)
    (hlt : (computeNetDue st.ledgerEntries).amount
      < routeParseFloat body.amount) :
    postSettleTx uuid now st keyOpt body
      = (.error (.validation .overExcess), st) := by
  unfold postSettleTx
  simp only [hnd]
  rw [if_neg (not_not_intro rfl), if_pos hlt]

theorem postSettleTx_success (uuid : ℕ → String) (now : String)
    (st : EventStoreState) (keyOpt : Option String) (body : SettlementBody)
    (hnd : (computeNetDue st.ledgerEntries).owes = some body.fromUserId)
    (hge : ¬ (computeNetDue st.ledgerEntries).amount
      < routeParseFloat body.amount)
    (hv : validateAmount (routeParseFloat body.amount) = .ok ())
    (hne : body.fromUserId ≠ body.toUserId) :
    ∃ resp st2, postSettleTx uuid now st keyOpt body = (.ok (201, resp), st2) ∧
      st2.ledgerEntries = st.ledgerEntries ++ settlementEntries uuid now
        ⟨body.fromUserId, body.toUserId, routeParseFloat body.amount⟩ := by
  unfold postSettleTx
  simp only [hnd]
  rw [if_neg (not_not_intro rfl), if_neg hge,
    postSettlement_of_valid uuid now _ hv hne]
  cases keyOpt with
  | none => exact ⟨_, _, rfl, by simp [addSettlement]⟩
  | some key =>
    exact ⟨_, _, rfl, by simp [addSettlement, storeIdempotencyResponse]⟩

theorem scenario_netDue : computeNetDue scenarioEntries = ⟨some UserId.B, 50⟩ := by
  rw [computeNetDue_cases]
  rw [show (scenarioEntries.filter fun e => e.account = "DUE_FROM:A->B")
      = [⟨"g4", .GROUP, "g0", ACCOUNTS.DUE_FROM .A .B, .A, none, 50, "t0"⟩]
    by simp [scenarioEntries, List.filter, cash_eq_dueFromAB,
      expense_eq_dueFromAB, dueFrom_eq_dueFromAB, dueTo_eq_dueFromAB]]
  rw [show (scenarioEntries.filter fun e => e.account = "DUE_FROM:B->A") = []
    by simp [scenarioEntries, List.filter, cash_eq_dueFromBA,
      expense_eq_dueFromBA, dueFrom_eq_dueFromBA, dueTo_eq_dueFromBA]]
  simp only [List.map_cons, List.map_nil, List.sum_cons, List.sum_nil]
  rw [show ((50:ℚ) + 0) - 0 = 50 by norm_num,
    show |(50:ℚ)| = 50 from abs_of_nonneg (by norm_num),
    if_neg (by norm_num : ¬((50:ℚ) < 1/1000)),
    if_pos (by norm_num : (0:ℚ) < 50),
    roundTo2Decimals_of_cents (c := 5000) (by norm_num)]

theorem parse_50_00 : routeParseFloat "50.00" = 50 := by
  simp only [routeParseFloat, parseMoneyString,
    show parseMoneyCents "50.00" = some 5000 from by decide]
  norm_num

theorem parse_50_01 : routeParseFloat "50.01" = 5001/100 := by
  simp only [routeParseFloat, parseMoneyString,
    show parseMoneyCents "50.01" = some 5001 from by decide]
  norm_num

theorem schema_50_00 : moneySchemaOk "50.00" = true := by
  simp only [moneySchemaOk, parseMoneyString,
    show parseMoneyCents "50.00" = some 5000 from by decide]
  rw [if_pos (show (0:ℚ) < ((5000:ℕ):ℚ)/100 ∧ ((5000:ℕ):ℚ)/100 ≤ 1000000
    by constructor <;> norm_num)]

theorem schema_50_01 : moneySchemaOk "50.01" = true := by
  simp only [moneySchemaOk, parseMoneyString,
    show parseMoneyCents "50.01" = some 5001 from by decide]
  rw [if_pos (show (0:ℚ) < ((5001:ℕ):ℚ)/100 ∧ ((5001:ℕ):ℚ)/100 ≤ 1000000
    by constructor <;> norm_num)]

theorem scenario_netDue_after :
    computeNetDue (scenarioEntries ++ settlementEntries (fun _ => "u") "t1"
      ⟨UserId.B, UserId.A, routeParseFloat "50.00"⟩) = ⟨none, 0⟩ := by
  rw [parse_50_00, computeNetDue_cases]
  rw [show ((scenarioEntries ++ settlementEntries (fun _ => "u") "t1"
        ⟨UserId.B, UserId.A, (50:ℚ)⟩).filter
          fun e => e.account = "DUE_FROM:A->B")
      = [⟨"g4", .GROUP, "g0", ACCOUNTS.DUE_FROM .A .B, .A, none, 50, "t0"⟩,
         ⟨"u", .SETTLEMENT, "u", ACCOUNTS.DUE_FROM .A .B, .A, none, -50, "t1"⟩]
    by simp [scenarioEntries, settlementEntries, List.filter,
      cash_eq_dueFromAB, expense_eq_dueFromAB, dueFrom_eq_dueFromAB,
      dueTo_eq_dueFromAB]]
  rw [show ((scenarioEntries ++ settlementEntries (fun _ => "u") "t1"
        ⟨UserId.B, UserId.A, (50:ℚ)⟩).filter
          fun e => e.account = "DUE_FROM:B->A") = []
    by simp [scenarioEntries, settlementEntries, List.filter,
      cash_eq_dueFromBA, expense_eq_dueFromBA, dueFrom_eq_dueFromBA,
      dueTo_eq_dueFromBA]]
  simp only [List.map_cons, List.map_nil, List.sum_cons, List.sum_nil]
  rw [show ((50:ℚ) + (-50 + 0)) - 0 = 0 by norm_num, abs_zero,
    if_pos (by norm_num : (0:ℚ) < 1/1000)]

/-- C7: the pre-posting caller rule of `POST /settle` — for a
schema-valid settlement request with distinct parties and no
idempotency interaction, the handler rejects with an over-settlement
validation error, leaving the store untouched, exactly when
`netDue().owes` is null, or `netDue().owes ≠ fromUserId`, or
`amount > netDue().amount`; otherwise it posts and appends the four
settlement entries.  In particular, from a state with
`netDue = {owes: B, amount: 50.00}`, settling `50.00` from B to A
succeeds and drives `netDue` to `{owes: null, amount: 0}`, while
settling `50.01` is rejected with the ledger history unchanged. -/
theorem C7_settle_caller_rule :
    (∀ (uuid : ℕ → String) (now : String) (st : EventStoreState)
        (body : SettlementBody),
      moneySchemaOk body.amount = true →
      body.fromUserId ≠ body.toUserId →
      (((computeNetDue st.ledgerEntries).owes = none ∨
        (computeNetDue st.ledgerEntries).owes ≠ some body.fromUserId ∨
        (computeNetDue st.ledgerEntries).amount < routeParseFloat body.amount)
        ↔
       (∃ k, settleRoute uuid now st none body = (.error (.validation k), st) ∧
          (k = .overNoDebt ∨ k = .overWrongDirection ∨ k = .overExcess))) ∧
      (¬ ((computeNetDue st.ledgerEntries).owes = none ∨
        (computeNetDue st.ledgerEntries).owes ≠ some body.fromUserId ∨
        (computeNetDue st.ledgerEntries).amount < routeParseFloat body.amount) →
       ∃ resp st2, settleRoute uuid now st none body = (.ok (201, resp), st2) ∧
         st2.ledgerEntries = st.ledgerEntries ++ settlementEntries uuid now
           ⟨body.fromUserId, body.toUserId, routeParseFloat body.amount⟩)) ∧
    computeNetDue scenarioStore.ledgerEntries = ⟨some UserId.B, 50⟩ ∧
    (∃ resp st2,
      settleRoute (fun _ => "u") "t1" scenarioStore none
          ⟨UserId.B, UserId.A, "50.00"⟩ = (.ok (201, resp), st2) ∧
        computeNetDue st2.ledgerEntries = ⟨none, 0⟩) ∧
    settleRoute (fun _ => "u") "t1" scenarioStore none
        ⟨UserId.B, UserId.A, "50.01"⟩
      = (.error (.validation .overExcess), scenarioStore) := by
  refine ⟨?_, ?_, ?_, ?_⟩
  · intro uuid now st body hs hne
    have hroute := settleRoute_noKey uuid now st body hs hne
    obtain ⟨c, hc, hpc, hpf, hv⟩ := moneySchemaOk_elim hs
    constructor
    · constructor
      · intro hcond
        rcases hnd : (computeNetDue st.ledgerEntries).owes with _ | w
        · exact ⟨.overNoDebt,
            by rw [hroute, postSettleTx_noDebt _ _ _ _ _ hnd], Or.inl rfl⟩
        · by_cases hw : w = body.fromUserId
          · subst hw
            rcases hcond with h1 | h2 | h3
            · rw [hnd] at h1
              exact Option.noConfusion h1
            · rw [hnd] at h2
              exact absurd rfl h2
            · exact ⟨.overExcess,
                by rw [hroute, postSettleTx_excess _ _ _ _ _ hnd h3],
                Or.inr (Or.inr rfl)⟩
          · exact ⟨.overWrongDirection,
              by rw [hroute, postSettleTx_wrongDir _ _ _ _ _ w hnd hw],
              Or.inr (Or.inl rfl)⟩
      · rintro ⟨k, hk, -⟩
        by_contra hcond
        push_neg at hcond
        obtain ⟨h1, h2, h3⟩ := hcond
        obtain ⟨resp, st2, hok, -⟩ :=
          postSettleTx_success uuid now st none body h2 (not_lt.2 h3) hv hne
        rw [hroute, hok] at hk
        simp at hk
    · intro hncond
      push_neg at hncond
      obtain ⟨h1, h2, h3⟩ := hncond
      obtain ⟨resp, st2, hok, hentries⟩ :=
        postSettleTx_success uuid now st none body h2 (not_lt.2 h3) hv hne
      exact ⟨resp, st2, by rw [hroute, hok], hentries⟩
  · exact scenario_netDue
  · have hne : (⟨UserId.B, UserId.A, "50.00"⟩ : SettlementBody).fromUserId
        ≠ (⟨UserId.B, UserId.A, "50.00"⟩ : SettlementBody).toUserId := by decide
    have hnd : (computeNetDue scenarioStore.ledgerEntries).owes
        = some UserId.B := by
      rw [show scenarioStore.ledgerEntries = scenarioEntries from rfl,
        scenario_netDue]
    have hge : ¬ (computeNetDue scenarioStore.ledgerEntries).amount
        < routeParseFloat "50.00" := by
      rw [show scenarioStore.ledgerEntries = scenarioEntries from rfl,
        scenario_netDue, parse_50_00]
      norm_num
    have hv : validateAmount (routeParseFloat "50.00") = .ok () := by
      rw [parse_50_00]
      exact validateAmount_ok_num (c := 5000) (by norm_num) (by norm_num)
    obtain ⟨resp, st2, hok, hentries⟩ :=
      postSettleTx_success (fun _ => "u") "t1" scenarioStore none
        ⟨UserId.B, UserId.A, "50.00"⟩ hnd hge hv hne
    refine ⟨resp, st2, ?_, ?_⟩
    · rw [settleRoute_noKey _ _ _ _ schema_50_00 hne, hok]
    · rw [hentries]
      exact scenario_netDue_after
  · have hne : (⟨UserId.B, UserId.A, "50.01"⟩ : SettlementBody).fromUserId
        ≠ (⟨UserId.B, UserId.A, "50.01"⟩ : SettlementBody).toUserId := by decide
    have hnd : (computeNetDue scenarioStore.ledgerEntries).owes
        = some UserId.B := by
      rw [show scenarioStore.ledgerEntries = scenarioEntries from rfl,
        scenario_netDue]
    have hlt : (computeNetDue scenarioStore.ledgerEntries).amount
        < routeParseFloat "50.01" := by
      rw [show scenarioStore.ledgerEntries = scenarioEntries from rfl,
        scenario_netDue, parse_50_01]
      norm_num
    rw [settleRoute_noKey _ _ _ _ schema_50_01 hne,
      postSettleTx_excess _ _ _ _ _ hnd hlt]

/-- C7 witness: the caller rule applied at the scenario store — the
`50.01` over-settlement condition makes the route reject with the
store unchanged. -/
theorem C7_witness :
    ∃ k, settleRoute (fun _ => "u") "t1" scenarioStore none
        ⟨UserId.B, UserId.A, "50.01"⟩
      = (.error (.validation k), scenarioStore) ∧
      (k = .overNoDebt ∨ k = .overWrongDirection ∨ k = .overExcess) := by
  have h := (C7_settle_caller_rule.1 (fun _ => "u") "t1" scenarioStore
    ⟨UserId.B, UserId.A, "50.01"⟩ schema_50_01 (by decide)).1.1
  apply h
  right
  right
  rw [show scenarioStore.ledgerEntries = scenarioEntries from rfl,
    scenario_netDue, parse_50_01]
  norm_num

/-! ### Idempotency-map helpers -/

theorem getIdem_store (st : EventStoreState) (key : String)
    (record : IdemRecord) :
    getIdempotencyResponse (storeIdempotencyResponse st key record) key
      = some record := by
  simp [getIdempotencyResponse, storeIdempotencyResponse, List.find?]

theorem normalizeIdemKey_ne (key : String) (hk : key ≠ "") :
    normalizeIdemKey (some key) = some key := by
  show (if key = "" then none else some key : Option String) = some key
  rw [if_neg hk]

theorem transactionsRoute_stored (uuid : ℕ → String) (now : String)
    (st : EventStoreState) (key : String) (body : GroupExpenseBody)
    (record : IdemRecord)
    (hs : moneySchemaOk body.amount = true)
    (hk1 : key ≠ "") (hk2 : key.length ≤ 255)
    (hrec : getIdempotencyResponse st key = some record) :
    transactionsRoute uuid now st (some key) body =
      if record.input = .group body then (.ok (200, record.data), st)
      else (.error .conflict, st) := by
  unfold transactionsRoute
  rw [if_neg (by rw [hs]; simp), normalizeIdemKey_ne key hk1]
  simp only [hrec]
  rw [if_neg (not_lt.2 hk2)]

theorem transactionsRoute_fresh (uuid : ℕ → String) (now : String)
    (st : EventStoreState) (key : String) (body : GroupExpenseBody)
    (hs : moneySchemaOk body.amount = true)
    (hk1 : key ≠ "") (hk2 : key.length ≤ 255)
    (hrec : getIdempotencyResponse st key = none) :
    transactionsRoute uuid now st (some key) body
      = postGroupTx uuid now st (some key) body := by
  unfold transactionsRoute
  rw [if_neg (by rw [hs]; simp), normalizeIdemKey_ne key hk1]
  simp only [hrec]
  rw [if_neg (not_lt.2 hk2)]

theorem settleRoute_stored (uuid : ℕ → String) (now : String)
    (st : EventStoreState) (key : String) (body : SettlementBody)
    (record : IdemRecord)
    (hs : moneySchemaOk body.amount = true)
    (hne : body.fromUserId ≠ body.toUserId)
    (hk1 : key ≠ "") (hk2 : key.length ≤ 255)
    (hrec : getIdempotencyResponse st key = some record) :
    settleRoute uuid now st (some key) body =
      if record.input = .settle body then (.ok (200, record.data), st)
      else (.error .conflict, st) := by
  unfold settleRoute
  rw [if_neg (by rw [hs]; simp), if_neg hne, normalizeIdemKey_ne key hk1]
  simp only [hrec]
  rw [if_neg (not_lt.2 hk2)]

theorem settleRoute_fresh (uuid : ℕ → String) (now : String)
    (st : EventStoreState) (key : String) (body : SettlementBody)
    (hs : moneySchemaOk body.amount = true)
    (hne : body.fromUserId ≠ body.toUserId)
    (hk1 : key ≠ "") (hk2 : key.length ≤ 255)
    (hrec : getIdempotencyResponse st key = none) :
    settleRoute uuid now st (some key) body
      = postSettleTx uuid now st (some key) body := by
  unfold settleRoute
  rw [if_neg (by rw [hs]; simp), if_neg hne, normalizeIdemKey_ne key hk1]
  simp only [hrec]
  rw [if_neg (not_lt.2 hk2)]

/-- Outcome discipline of the `POST /transactions` posting tail: any
error leaves the store untouched; a success carries status 201 and only
then records the idempotency response under the supplied key. -/
theorem postGroupTx_state (uuid : ℕ → String) (now : String)
    (st : EventStoreState) (keyOpt : Option String)
    (body : GroupExpenseBody) :
    (∀ e, (postGroupTx uuid now st keyOpt body).1 = .error e →
      (postGroupTx uuid now st keyOpt body).2 = st) ∧
    (∀ status data,
      (postGroupTx uuid now st keyOpt body).1 = .ok (status, data) →
      status = 201 ∧ ∀ key, keyOpt = some key →
        getIdempotencyResponse (postGroupTx uuid now st keyOpt body).2 key
          = some ⟨.group body, data⟩) := by
  unfold postGroupTx
  rcases hpe : postGroupExpense uuid now
      ⟨body.payerId, routeParseFloat body.amount, body.category⟩ with e | es
  · simp only [hpe]
    constructor
    · intro e' h
      trivial
    · intro status data h
      simp at h
  · simp only [hpe]
    constructor
    · intro e' h
      simp at h
    · intro status data h
      simp only [Except.ok.injEq, Prod.mk.injEq] at h
      obtain ⟨h1, h2⟩ := h
      refine ⟨h1.symm, ?_⟩
      intro key hkey
      subst hkey
      rw [← h2]
      exact getIdem_store _ key _

/-- Outcome discipline of the `POST /settle` posting tail: any error
(over-settlement rule or ledger error) leaves the store untouched; a
success carries status 201 and only then records the idempotency
response under the supplied key. -/
theorem postSettleTx_state (uuid : ℕ → String) (now : String)
    (st : EventStoreState) (keyOpt : Option String)
    (body : SettlementBody) :
    (∀ e, (postSettleTx uuid now st keyOpt body).1 = .error e →
      (postSettleTx uuid now st keyOpt body).2 = st) ∧
    (∀ status data,
      (postSettleTx uuid now st keyOpt body).1 = .ok (status, data) →
      status = 201 ∧ ∀ key, keyOpt = some key →
        getIdempotencyResponse (postSettleTx uuid now st keyOpt body).2 key
          = some ⟨.settle body, data⟩) := by
  unfold postSettleTx
  rcases hnd : (computeNetDue st.ledgerEntries).owes with _ | w
  · simp only [hnd]
    constructor
    · intro e' h
      trivial
    · intro status data h
      simp at h
  · simp only [hnd]
    by_cases hw : w ≠ body.fromUserId
    · rw [if_pos hw]
      constructor
      · intro e' h
        trivial
      · intro status data h
        simp at h
    · rw [if_neg hw]
      by_cases hlt : (computeNetDue st.ledgerEntries).amount
          < routeParseFloat body.amount
      · rw [if_pos hlt]
        constructor
        · intro e' h
          trivial
        · intro status data h
          simp at h
      · rw [if_neg hlt]
        rcases hps : postSettlement uuid now
            ⟨body.fromUserId, body.toUserId, routeParseFloat body.amount⟩
          with e | es
        · simp only [hps]
          constructor
          · intro e' h
            trivial
          · intro status data h
            simp at h
        · simp only [hps]
          constructor
          · intro e' h
            simp at h
          · intro status data h
            simp only [Except.ok.injEq, Prod.mk.injEq] at h
            obtain ⟨h1, h2⟩ := h
            refine ⟨h1.symm, ?_⟩
            intro key hkey
            subst hkey
            rw [← h2]
            exact getIdem_store _ key _

/-- C10: idempotency of the two posting routes.  For a schema-valid
request carrying a non-empty `Idempotency-Key` of acceptable length:
when a response is stored under the key with an identical parsed body,
the stored response is replayed with status 200 and the store is
unchanged; when the stored body differs, the request fails with the
conflict error and the store is unchanged; when the key is unknown,
any failure leaves the store unchanged, and a success has status 201
and records `{input, data}` under the key only then. -/
theorem C10_idempotency :
    (∀ (uuid : ℕ → String) (now : String) (st : EventStoreState)
        (key : String) (body : GroupExpenseBody) (record : IdemRecord),
      moneySchemaOk body.amount = true → key ≠ "" → key.length ≤ 255 →
      (getIdempotencyResponse st key = some record →
        (record.input = .group body →
          transactionsRoute uuid now st (some key) body
            = (.ok (200, record.data), st)) ∧
        (record.input ≠ .group body →
          transactionsRoute uuid now st (some key) body
            = (.error .conflict, st))) ∧
      (getIdempotencyResponse st key = none →
        (∀ e, (transactionsRoute uuid now st (some key) body).1 = .error e →
          (transactionsRoute uuid now st (some key) body).2 = st) ∧
        (∀ status data,
          (transactionsRoute uuid now st (some key) body).1
            = .ok (status, data) →
          status = 201 ∧
          getIdempotencyResponse
              (transactionsRoute uuid now st (some key) body).2 key
            = some ⟨.group body, data⟩))) ∧
    (∀ (uuid : ℕ → String) (now : String) (st : EventStoreState)
        (key : String) (body : SettlementBody) (record : IdemRecord),
      moneySchemaOk body.amount = true →
      body.fromUserId ≠ body.toUserId → key ≠ "" → key.length ≤ 255 →
      (getIdempotencyResponse st key = some record →
        (record.input = .settle body →
          settleRoute uuid now st (some key) body
            = (.ok (200, record.data), st)) ∧
        (record.input ≠ .settle body →
          settleRoute uuid now st (some key) body
            = (.error .conflict, st))) ∧
      (getIdempotencyResponse st key = none →
        (∀ e, (settleRoute uuid now st (some key) body).1 = .error e →
          (settleRoute uuid now st (some key) body).2 = st) ∧
        (∀ status data,
          (settleRoute uuid now st (some key) body).1 = .ok (status, data) →
          status = 201 ∧
          getIdempotencyResponse
              (settleRoute uuid now st (some key) body).2 key
            = some ⟨.settle body, data⟩))) := by
  constructor
  · intro uuid now st key body record hs hk1 hk2
    constructor
    · intro hrec
      constructor
      · intro hin
        rw [transactionsRoute_stored uuid now st key body record hs hk1 hk2
          hrec, if_pos hin]
      · intro hin
        rw [transactionsRoute_stored uuid now st key body record hs hk1 hk2
          hrec, if_neg hin]
    · intro hrec
      have hfresh := transactionsRoute_fresh uuid now st key body hs hk1 hk2 hrec
      have hstate := postGroupTx_state uuid now st (some key) body
      constructor
      · intro e h
        rw [hfresh] at h ⊢
        exact hstate.1 e h
      · intro status data h
        rw [hfresh] at h ⊢
        obtain ⟨h1, h2⟩ := hstate.2 status data h
        exact ⟨h1, h2 key rfl⟩
  · intro uuid now st key body record hs hne hk1 hk2
    constructor
    · intro hrec
      constructor
      · intro hin
        rw [settleRoute_stored uuid now st key body record hs hne hk1 hk2
          hrec, if_pos hin]
      · intro hin
        rw [settleRoute_stored uuid now st key body record hs hne hk1 hk2
          hrec, if_neg hin]
    · intro hrec
      have hfresh := settleRoute_fresh uuid now st key body hs hne hk1 hk2 hrec
      have hstate := postSettleTx_state uuid now st (some key) body
      constructor
      · intro e h
        rw [hfresh] at h ⊢
        exact hstate.1 e h
      · intro status data h
        rw [hfresh] at h ⊢
        obtain ⟨h1, h2⟩ := hstate.2 status data h
        exact ⟨h1, h2 key rfl⟩

/-- C10 witness: replaying the identical body under the stored key
returns the stored response with status 200 and leaves the store
unchanged. -/
theorem C10_witness :
    transactionsRoute (fun _ => "u") "t" c10Store (some "k")
        ⟨UserId.A, "100.00", Category.food⟩
      = (.ok (200, c10Record.data), c10Store) := by
  have hs : moneySchemaOk "100.00" = true := by
    simp only [moneySchemaOk, parseMoneyString,
      show parseMoneyCents "100.00" = some 10000 from by decide]
    rw [if_pos (show (0:ℚ) < ((10000:ℕ):ℚ)/100 ∧ ((10000:ℕ):ℚ)/100 ≤ 1000000
      by constructor <;> norm_num)]
  have hrec : getIdempotencyResponse c10Store "k" = some c10Record := by
    simp [getIdempotencyResponse, c10Store, List.find?]
  exact ((C10_idempotency.1 (fun _ => "u") "t" c10Store "k"
      ⟨UserId.A, "100.00", Category.food⟩ c10Record hs (by decide)
      (by decide)).1 hrec).1 rfl

end SplitBudget
